import Mathlib

/-!
Shallow embedding of the geofw GeoDB reader/compactor (geofw/src/maxmind.rs),
the fast-path lookup (geofw-ebpf/src/main.rs) and the shared constants
(geofw-common/src/lib.rs), together with theorems settling the frozen claims.

Bytes are modelled as `Nat` (values of a `u8` are `< 256`); byte buffers as
`List Nat`.  Machine-integer bit operations are translated to `Nat`
arithmetic with explicit `/`, `%`, `*` (for `u8`/`u32` inputs these agree
exactly with the source's `&`, `>>`, `<<`, `|` and `from_be_bytes`).
Rust panics (index out of bounds, `unreachable!`, `todo!`, failed asserts)
are modelled as the error value `RErr.crash`; recursion in the decoder is
fuel-indexed, with exhaustion reported as the distinct error `RErr.fuel`.
-/

namespace Geofw

/-- Outcomes of fallible embedded code.  `crash` models a Rust panic
(out-of-bounds slice/index, `unreachable!`, `todo!`, failed assert);
`malformedDb` is modelled from the spec: the structured decode error
`MalformedDb` the spec describes (the source never constructs it);
`fuel` is the modelling artifact of running out of recursion fuel. -/
inductive RErr where
  | crash
  | malformedDb
  | fuel
deriving DecidableEq, Repr

/-- `BLOCK_MARKER` from geofw-common/src/lib.rs: `0x00ffffff`. -/
def BLOCK_MARKER : Nat := 0x00ffffff

/-- `u32::from_be_bytes([a, b, c, d])` for byte values `a b c d`. -/
def fromBE4 (a b c d : Nat) : Nat := ((a * 256 + b) * 256 + c) * 256 + d

/-- Checked byte access `d[i]`: a Rust index panic becomes `RErr.crash`. -/
def idx (d : List Nat) (i : Nat) : Except RErr Nat :=
  match d[i]? with
  | some v => .ok v
  | none => .error .crash

/-- Checked slicing `&d[a..b]`: panics unless `a ≤ b ≤ d.length`. -/
def slice (d : List Nat) (a b : Nat) : Except RErr (List Nat) :=
  if a ≤ b ∧ b ≤ d.length then .ok ((d.drop a).take (b - a)) else .error .crash

/-- The decoded value type `Data` of maxmind.rs.  Strings and byte slices
are the borrowed byte ranges; `double`/`float` keep the raw big-endian
bytes of the IEEE value (no claim inspects the numeric value); maps are
association lists with most-recent insertion first. -/
inductive Data where
  | str (s : List Nat)
  | double (b : List Nat)
  | bytes (b : List Nat)
  | u16 (n : Nat)
  | u32 (n : Nat)
  | map (m : List (List Nat × Data))
  | i32 (n : Int)
  | u64 (n : Nat)
  | u128 (n : Nat)
  | arr (a : List Data)
  | dataCache
  | endMarker
  | boolean (b : Bool)
  | float (b : List Nat)
deriving Repr

/-- `Metadata` of maxmind.rs. -/
structure Metadata where
  node_count : Nat
  record_size : Nat
  data_section_start : Nat
deriving Repr

/-- `MaxmindDB`: metadata plus the raw database bytes. -/
structure MaxmindDB where
  metadata : Metadata
  data : List Nat
deriving Repr

/-- `ProcessedDb` of maxmind.rs: output of the compactor. -/
structure ProcessedDb where
  node_count : Nat
  record_size : Nat
  db : List Nat
deriving Repr

/-- `FxHashMap::insert` semantics on the association-list model:
the newest binding shadows older ones. -/
def mapInsert (m : List (List Nat × Data)) (k : List Nat) (v : Data) :
    List (List Nat × Data) :=
  (k, v) :: m

/-- `FxHashMap::get` on the association-list model. -/
def mapGet (m : List (List Nat × Data)) (k : List Nat) : Option Data :=
  (m.find? (fun p => p.1 == k)).map (·.2)

/-- The `match length { ... }` of `read_data_meta`: from the 5-bit length
field `len0` the payload length and total header size `read + r`.
Length fields 29/30/31 add the following one/two/three raw bytes (the
source SUMS them) to the offsets 29/285/65821. -/
def readDataMetaLen (d : List Nat) (read dataType len0 : Nat) :
    Except RErr (Nat × Nat × Nat) :=
  if len0 < 29 then .ok (dataType, len0, read + 1)
  else if len0 = 29 then
    match idx d 1 with
    | .error e => .error e
    | .ok b1 => .ok (dataType, 29 + b1, read + 2)
  else if len0 = 30 then
    match idx d 1, idx d 2 with
    | .ok b1, .ok b2 => .ok (dataType, 285 + b1 + b2, read + 3)
    | .error e, _ => .error e
    | _, .error e => .error e
  else
    match idx d 1, idx d 2, idx d 3 with
    | .ok b1, .ok b2, .ok b3 => .ok (dataType, 65821 + b1 + b2 + b3, read + 4)
    | .error e, _, _ => .error e
    | _, .error e, _ => .error e
    | _, _, .error e => .error e

/-- `MaxmindDB::read_data_meta`: decode the control byte(s) of a typed
value, returning `(type, payload length, header bytes consumed)`. -/
def readDataMeta (d : List Nat) : Except RErr (Nat × Nat × Nat) :=
  match idx d 0 with
  | .error e => .error e
  | .ok b0 =>
    -- data_type: `if data[0] >> 5 == 0 { read += 1; data[1] + 7 } else { data[0] >> 5 }`;
    -- the length field is `data[0] & 0b000_11111 = b0 % 32`
    if b0 / 32 = 0 then
      match idx d 1 with
      | .error e => .error e
      | .ok b1 => readDataMetaLen d 1 (b1 + 7) (b0 % 32)
    else readDataMetaLen d 0 (b0 / 32) (b0 % 32)

/-- `MaxmindDB::read_u16` (big-endian, zero-extended; panics on length > 2). -/
def readU16 (data : List Nat) (offset length : Nat) : Except RErr Data :=
  match slice data offset (offset + length) with
  | .error e => .error e
  | .ok s =>
    match s with
    | [] => .ok (.u16 0)
    | [a] => .ok (.u16 a)
    | [a, b] => .ok (.u16 (a * 256 + b))
    | _ => .error .crash   -- unreachable!

/-- `MaxmindDB::read_u32`. -/
def readU32 (data : List Nat) (offset length : Nat) : Except RErr Data :=
  match slice data offset (offset + length) with
  | .error e => .error e
  | .ok s =>
    match s with
    | [] => .ok (.u32 0)
    | [a] => .ok (.u32 a)
    | [a, b] => .ok (.u32 (a * 256 + b))
    | [a, b, c] => .ok (.u32 ((a * 256 + b) * 256 + c))
    | [a, b, c, d] => .ok (.u32 (fromBE4 a b c d))
    | _ => .error .crash   -- unreachable!

/-- `MaxmindDB::read_i32`: the shifted accumulation reinterpreted as a
two's-complement `i32` (a top byte ≥ 128 with four bytes present makes
the value negative). -/
def readI32 (data : List Nat) (offset length : Nat) : Except RErr Data :=
  match slice data offset (offset + length) with
  | .error e => .error e
  | .ok s =>
    match s with
    | [] => .ok (.i32 0)
    | [a] => .ok (.i32 a)
    | [a, b] => .ok (.i32 (a * 256 + b))
    | [a, b, c] => .ok (.i32 ((a * 256 + b) * 256 + c))
    | [a, b, c, d] =>
      let n := fromBE4 a b c d
      .ok (.i32 (if n < 2 ^ 31 then (n : Int) else (n : Int) - 2 ^ 32))
    | _ => .error .crash   -- unreachable!

/-- Big-endian fold used by `read_u64` / `read_u128`:
`acc | (byte << (8 * (len - i - 1)))`. -/
def beFold (s : List Nat) : Nat := s.foldl (fun acc b => acc * 256 + b) 0

/-- `MaxmindDB::read_u64` (a length over 8 makes the source's shift
overflow, a panic). -/
def readU64 (data : List Nat) (offset length : Nat) : Except RErr Data :=
  match slice data offset (offset + length) with
  | .error e => .error e
  | .ok s => if s.length ≤ 8 then .ok (.u64 (beFold s)) else .error .crash

/-- `MaxmindDB::read_u128`. -/
def readU128 (data : List Nat) (offset length : Nat) : Except RErr Data :=
  match slice data offset (offset + length) with
  | .error e => .error e
  | .ok s => if s.length ≤ 16 then .ok (.u128 (beFold s)) else .error .crash

/-- The pointer computation of `follow_pointer`: given the sub-type
`s = (data[0] >> 3) & 0x3` and value bits `v = data[0] & 0b0000_0111`,
read 1..4 further bytes and build the big-endian target with the
sub-type biases 0 / 2048 / 526336 / 0. -/
def pointerValue (data : List Nat) (offset s v : Nat) : Except RErr Nat :=
  if s = 0 then
    match idx data (offset + 1) with
    | .ok d1 => .ok (fromBE4 0 0 v d1)
    | .error e => .error e
  else if s = 1 then
    match idx data (offset + 1), idx data (offset + 2) with
    | .ok d1, .ok d2 => .ok (fromBE4 0 v d1 d2 + 2048)
    | .error e, _ => .error e
    | _, .error e => .error e
  else if s = 2 then
    match idx data (offset + 1), idx data (offset + 2),
        idx data (offset + 3) with
    | .ok d1, .ok d2, .ok d3 => .ok (fromBE4 v d1 d2 d3 + 526336)
    | .error e, _, _ => .error e
    | _, .error e, _ => .error e
    | _, _, .error e => .error e
  else
    match idx data (offset + 1), idx data (offset + 2),
        idx data (offset + 3), idx data (offset + 4) with
    | .ok d1, .ok d2, .ok d3, .ok d4 => .ok (fromBE4 d1 d2 d3 d4)
    | .error e, _, _, _ => .error e
    | _, .error e, _, _ => .error e
    | _, _, .error e, _ => .error e
    | _, _, _, .error e => .error e

/-- The four mutually recursive operations of the decoder, flattened into
one fuel-indexed function: `data` is `read_data`, `mapEntries`/`arrEntries`
are the loop bodies of `read_map`/`read_array` (carrying the bytes consumed
so far and the accumulated entries), `ptr` is `follow_pointer`. -/
inductive DecCall where
  | data (offset : Nat)
  | mapEntries (offset read length : Nat) (acc : List (List Nat × Data))
  | arrEntries (offset read length : Nat) (acc : List Data)
  | ptr (offset : Nat)

/-- The decoder: `MaxmindDB::read_data` / `read_map` / `read_array` /
`follow_pointer`, structurally recursive on fuel. -/
def decode (db : MaxmindDB) : Nat → DecCall → Except RErr (Data × Nat)
  | 0, _ => .error .fuel
  | fuel + 1, .data read_offset =>
    -- `let data = &self.data[read_offset..]` (written out as
    -- `db.data.drop read_offset` below) panics when past the end
    if db.data.length < read_offset then .error .crash else
    match readDataMeta (db.data.drop read_offset) with
    | .error e => .error e
    | .ok (data_type, length, read) =>
      match data_type with
      | 1 => decode db fuel (.ptr read_offset)
      | 2 =>
        match slice db.data (read_offset + read) (read_offset + read + length) with
        | .error e => .error e
        | .ok s => .ok (.str s, read + length)
      | 3 =>
        -- assert_eq!(length, 8); read_float::<8> reads the first 8 bytes
        -- of the slice at read_offset (the header bytes!)
        if length = 8 then
          if 8 ≤ (db.data.drop read_offset).length then
            .ok (.double ((db.data.drop read_offset).take 8), read + length)
          else .error .crash
        else .error .crash
      | 4 => .error .crash   -- todo!("reached data field")
      | 5 =>
        match readU16 db.data (read_offset + read) length with
        | .error e => .error e
        | .ok v => .ok (v, read + length)
      | 6 =>
        match readU32 db.data (read_offset + read) length with
        | .error e => .error e
        | .ok v => .ok (v, read + length)
      | 7 => decode db fuel (.mapEntries read_offset read length [])
      | 8 =>
        match readI32 db.data (read_offset + read) length with
        | .error e => .error e
        | .ok v => .ok (v, read + length)
      | 9 =>
        match readU64 db.data (read_offset + read) length with
        | .error e => .error e
        | .ok v => .ok (v, read + length)
      | 10 =>
        match readU128 db.data (read_offset + read) length with
        | .error e => .error e
        | .ok v => .ok (v, read + length)
      | 11 => decode db fuel (.arrEntries read_offset read length [])
      | 12 => .error .crash   -- todo!("reached data cache container")
      | 13 => .ok (.endMarker, read_offset + read)   -- source returns read_offset + read here
      | 14 => .ok (.boolean (length = 1), read)
      | 15 =>
        if length = 4 then
          if 4 ≤ (db.data.drop read_offset).length then
            .ok (.float ((db.data.drop read_offset).take 4), read + length)
          else .error .crash
        else .error .crash
      | _ => .error .crash   -- unreachable!
  | _ + 1, .mapEntries offset read 0 acc => .ok (.map acc, read)
  | fuel + 1, .mapEntries offset read (length + 1) acc =>
    match decode db fuel (.data (offset + read)) with
    | .error e => .error e
    | .ok (key, r1) =>
      match decode db fuel (.data (offset + read + r1)) with
      | .error e => .error e
      | .ok (value, r2) =>
        match key with
        | .str k =>
          decode db fuel (.mapEntries offset (read + r1 + r2) length (mapInsert acc k value))
        | _ => .error .crash   -- `let Data::String(key) = key else unreachable!`
  | _ + 1, .arrEntries offset read 0 acc => .ok (.arr acc, read)
  | fuel + 1, .arrEntries offset read (length + 1) acc =>
    match decode db fuel (.data (offset + read)) with
    | .error e => .error e
    | .ok (value, r) =>
      decode db fuel (.arrEntries offset (read + r) length (acc ++ [value]))
  | fuel + 1, .ptr offset =>
    -- follow_pointer: `s = (data[0] >> 3) & 0x3`, `v = data[0] & 0b0000_0111`
    match idx db.data offset with
    | .error e => .error e
    | .ok b0 =>
      match pointerValue db.data offset (b0 / 8 % 4) (b0 % 8) with
      | .error e => .error e
      | .ok pointer =>
        match decode db fuel (.data (db.metadata.data_section_start + pointer)) with
        | .error e => .error e
        | .ok (value, _) => .ok (value, b0 / 8 % 4 + 1 + 1)

/-- `MaxmindDB::read_data` at a byte offset. -/
def readData (db : MaxmindDB) (fuel offset : Nat) : Except RErr (Data × Nat) :=
  decode db fuel (.data offset)

/-- `MaxmindDB::follow_pointer` at a byte offset. -/
def follow_pointer (db : MaxmindDB) (fuel offset : Nat) : Except RErr (Data × Nat) :=
  decode db fuel (.ptr offset)

/-! ## Node-pointer codec (maxmind.rs) -/

/-- `MaxmindDB::node_from_bytes(n, bit, record_size)`.  For 28-bit records,
`bit = true` reads `[(n[3] & 0xF0) >> 4, n[0], n[1], n[2]]` (the left
child: bytes 0..2 plus the high nibble of byte 3) and `bit = false` reads
`[n[3] & 0x0F, n[4], n[5], n[6]]` (the right child); for 24-bit records,
`true` is bytes 0..2 and `false` bytes 3..5.  Any other record size is
`unreachable!`.  Nibble operations are written arithmetically:
`(x & 0xF0) >> 4 = x / 16 % 16` and `x & 0x0F = x % 16` for every `Nat`. -/
def node_from_bytes (n : List Nat) (bit : Bool) (record_size : Nat) :
    Except RErr Nat :=
  if record_size = 28 then
    if bit then
      match idx n 3, idx n 0, idx n 1, idx n 2 with
      | .ok n3, .ok n0, .ok n1, .ok n2 => .ok (fromBE4 (n3 / 16 % 16) n0 n1 n2)
      | .error e, _, _, _ => .error e
      | _, .error e, _, _ => .error e
      | _, _, .error e, _ => .error e
      | _, _, _, .error e => .error e
    else
      match idx n 3, idx n 4, idx n 5, idx n 6 with
      | .ok n3, .ok n4, .ok n5, .ok n6 => .ok (fromBE4 (n3 % 16) n4 n5 n6)
      | .error e, _, _, _ => .error e
      | _, .error e, _, _ => .error e
      | _, _, .error e, _ => .error e
      | _, _, _, .error e => .error e
  else if record_size = 24 then
    if bit then
      match idx n 0, idx n 1, idx n 2 with
      | .ok n0, .ok n1, .ok n2 => .ok (fromBE4 0 n0 n1 n2)
      | .error e, _, _ => .error e
      | _, .error e, _ => .error e
      | _, _, .error e => .error e
    else
      match idx n 3, idx n 4, idx n 5 with
      | .ok n3, .ok n4, .ok n5 => .ok (fromBE4 0 n3 n4 n5)
      | .error e, _, _ => .error e
      | _, .error e, _ => .error e
      | _, _, .error e => .error e
  else .error .crash   -- unreachable!

/-- `MaxmindDB::write_over_node_bytes(n, bit, record_size, val)`.
`val.to_be_bytes()` is `[v0, v1, v2, v3]` below.  Byte-level `u8`
operations are arithmetic: `(n[3] & 0x0F) | (val[0] << 4)` is
`n[3] % 16 + val0 % 16 * 16` (the `u8` shift discards the high nibble),
`(n[3] & 0xF0) | (val[0] & 0x0F)` is `n[3] / 16 % 16 * 16 + val0 % 16`.
The slice writes panic when the node buffer is too short. -/
def write_over_node_bytes (n : List Nat) (bit : Nat) (record_size : Nat)
    (val : Nat) : Except RErr (List Nat) :=
  let v0 := val / 16777216 % 256
  let v1 := val / 65536 % 256
  let v2 := val / 256 % 256
  let v3 := val % 256
  if record_size = 28 ∧ bit = 0 then
    if 4 ≤ n.length then
      .ok ((((n.set 0 v1).set 1 v2).set 2 v3).set 3 (n.getD 3 0 % 16 + v0 % 16 * 16))
    else .error .crash
  else if record_size = 28 ∧ bit = 1 then
    if 7 ≤ n.length then
      .ok ((((n.set 4 v1).set 5 v2).set 6 v3).set 3 (n.getD 3 0 / 16 % 16 * 16 + v0 % 16))
    else .error .crash
  else if record_size = 24 ∧ bit = 0 then
    if 3 ≤ n.length then .ok (((n.set 0 v1).set 1 v2).set 2 v3) else .error .crash
  else if record_size = 24 ∧ bit = 1 then
    if 6 ≤ n.length then .ok (((n.set 3 v1).set 4 v2).set 5 v3) else .error .crash
  else .error .crash   -- unreachable!

/-! ## Full-database lookup (maxmind.rs) -/

/-- IP addresses: the `u32` value of an IPv4 address or the `u128` value
of an IPv6 address (as produced by `to_bits`). -/
inductive IpAddr where
  | v4 (a : Nat)
  | v6 (a : Nat)

/-- The descent loop of `MaxmindDB::lookup`:
`while i >= 0 && node < node_count`, with `steps = i + 1` remaining bits,
`bit = (ip & (1 << i)) == 0`, and the node read
`&self.data[node * node_size .. node * node_size + node_size]`. -/
def lookupLoop (db : MaxmindDB) (node_size ip : Nat) : Nat → Nat → Except RErr Nat
  | node, 0 => .ok node
  | node, steps + 1 =>
    if node < db.metadata.node_count then
      match slice db.data (node * node_size) (node * node_size + node_size) with
      | .error e => .error e
      | .ok n =>
        match node_from_bytes n (decide (ip / 2 ^ steps % 2 = 0)) db.metadata.record_size with
        | .error e => .error e
        | .ok node2 => lookupLoop db node_size ip node2 steps
    else .ok node

/-- `MaxmindDB::lookup`: IPv4 starts at node 96 with bit index 31 (32
remaining steps), IPv6 at node 0 with bit index 127 (128 steps); then
`None` when the final node equals `node_count`, a decoded record at
`data_section_start + (node - node_count) - 16` when it is above, and a
panic (checked `u32` underflow of `node - node_count`) when the bits ran
out below `node_count`. -/
def lookup (db : MaxmindDB) (fuel : Nat) (addr : IpAddr) :
    Except RErr (Option Data) :=
  let node_size := db.metadata.record_size * 2 / 8
  let start : Nat × Nat × Nat :=
    match addr with
    | .v4 a => (96, 32, a % 2 ^ 32)
    | .v6 a => (0, 128, a % 2 ^ 128)
  match lookupLoop db node_size start.2.2 start.1 start.2.1 with
  | .error e => .error e
  | .ok node =>
    if node = db.metadata.node_count then .ok none
    else if node < db.metadata.node_count then .error .crash
    else
      match readData db fuel
          (db.metadata.data_section_start + (node - db.metadata.node_count) - 16) with
      | .error e => .error e
      | .ok (d, _) => .ok (some d)

/-! ## Compactor (maxmind.rs, `MaxmindDB::consume`) -/

/-- The child pushes of one compactor iteration: push `node_1` first,
then `node_2`, each when below `node_count` and at depth < 128 (the
head of the resulting list is the Rust vector's top). -/
def pushChildren (md : Metadata) (node_1 node_2 position : Nat)
    (stack : List (Nat × Nat)) : List (Nat × Nat) :=
  let stack1 := if position < 128 ∧ node_1 < md.node_count then
      (node_1, position + 1) :: stack else stack
  if position < 128 ∧ node_2 < md.node_count then
    (node_2, position + 1) :: stack1 else stack1

/-- The record-offset selection of one compactor iteration: the source's
`if/else if/else { continue }`, which examines AT MOST ONE record child,
preferring `node_1` (the right child). -/
def recordOffset (md : Metadata) (node_1 node_2 : Nat) : Option Nat :=
  if node_1 ≠ BLOCK_MARKER ∧ node_1 > md.node_count then
    some (node_1 - md.node_count)
  else if node_2 ≠ BLOCK_MARKER ∧ node_2 > md.node_count then
    some (node_2 - md.node_count)
  else none

/-- One `while let Some((node, position)) = stack.pop()` loop of
`MaxmindDB::consume`, structurally recursive on loop fuel (`rfuel` is
the decoder's fuel).  The popped node's slice is read; `node_1` is
`node_from_bytes(n, false, ..)` (the right child) and `node_2` is
`node_from_bytes(n, true, ..)` (the left child); children below
`node_count` are pushed at depth < 128; at most one record child is
decoded (the `node_1` branch takes priority), and on a positive
predicate `write_over_node_bytes` is invoked with the hard-coded bit 0. -/
def consumeLoop (md : Metadata) (pred : List (List Nat × Data) → Bool)
    (rfuel : Nat) : Nat → List Nat → List (Nat × Nat) → Except RErr (List Nat)
  | 0, _, _ => .error .fuel
  | _ + 1, data, [] => .ok data
  | fuel + 1, data, (node, position) :: stack =>
    match slice data (node * (md.record_size * 2 / 8))
        (node * (md.record_size * 2 / 8) + md.record_size * 2 / 8) with
    | .error e => .error e
    | .ok n =>
      match node_from_bytes n false md.record_size,
          node_from_bytes n true md.record_size with
      | .error e, _ => .error e
      | _, .error e => .error e
      | .ok node_1, .ok node_2 =>
        match recordOffset md node_1 node_2 with
        | none =>
          consumeLoop md pred rfuel fuel data
            (pushChildren md node_1 node_2 position stack)
        | some data_section_offset =>
          match decode ⟨md, data⟩ rfuel
              (.data (md.data_section_start + data_section_offset - 16)) with
          | .error e => .error e
          | .ok (.map m, _) =>
            if pred m then
              match write_over_node_bytes n 0 md.record_size BLOCK_MARKER with
              | .error e => .error e
              | .ok n2 =>
                consumeLoop md pred rfuel fuel
                  (data.take (node * (md.record_size * 2 / 8)) ++ n2 ++
                    data.drop (node * (md.record_size * 2 / 8) +
                      md.record_size * 2 / 8))
                  (pushChildren md node_1 node_2 position stack)
            else
              consumeLoop md pred rfuel fuel data
                (pushChildren md node_1 node_2 position stack)
          | .ok _ => .error .crash   -- `let Data::Map(data) = data else unreachable!`

/-- `MaxmindDB::consume`: run the DFS from `(0, 0)`, then trim to
`self.data[..self.metadata.data_section_start]` (a panic if the data is
shorter than `data_section_start`). -/
def consume (db : MaxmindDB) (pred : List (List Nat × Data) → Bool)
    (rfuel fuel : Nat) : Except RErr ProcessedDb :=
  match consumeLoop db.metadata pred rfuel fuel db.data [(0, 0)] with
  | .error e => .error e
  | .ok data2 =>
    if db.metadata.data_section_start ≤ data2.length then
      .ok ⟨db.metadata.node_count, db.metadata.record_size,
        data2.take db.metadata.data_section_start⟩
    else .error .crash

/-! ## Fast-path lookup (geofw-ebpf/src/main.rs) -/

/-- `MaxmindDb` database kinds of geofw-common. -/
inductive MaxmindDbKind where
  | country
  | asn

/-- `ProgramParameters` keys of geofw-common (`CountryNodeCount = 1`,
`CountryRecordSize = 2`, `AsnNodeCount = 3`, `AsnRecordSize = 4`);
`record_size_key`/`node_count_key` select the key `should_block` uses. -/
def record_size_key : MaxmindDbKind → Nat
  | .country => 2
  | .asn => 4

/-- Parameter-table key for the node count of a database kind. -/
def node_count_key : MaxmindDbKind → Nat
  | .country => 1
  | .asn => 3

/-- The eBPF `node_from_bytes(n, bit, record_size)`: `n` is the fixed
`[u8; 8]` buffer, `bit == 0` reads the left child, anything else the
right child, and an unsupported record size returns 0 (the source's
`_ => 0` arm). -/
def ebpf_node_from_bytes (n : List Nat) (bit : Nat) (record_size : Nat) : Nat :=
  if record_size = 28 then
    if bit = 0 then fromBE4 (n.getD 3 0 / 16 % 16) (n.getD 0 0) (n.getD 1 0) (n.getD 2 0)
    else fromBE4 (n.getD 3 0 % 16) (n.getD 4 0) (n.getD 5 0) (n.getD 6 0)
  else if record_size = 24 then
    if bit = 0 then fromBE4 0 (n.getD 0 0) (n.getD 1 0) (n.getD 2 0)
    else fromBE4 0 (n.getD 3 0) (n.getD 4 0) (n.getD 5 0)
  else 0

/-- The slice-filling loop of the eBPF `should_block`:
`for (i, v) in slice.iter_mut().enumerate().take(node_size)` performs
`min node_size 8` checked map reads at `u32` index
`node * node_size + i`; a failed read aborts (the source returns false). -/
def fillSliceGo (image : Nat → Option Nat) (node node_size : Nat) :
    Nat → Nat → List Nat → Option (List Nat)
  | _, 0, s => some s
  | j, k + 1, s =>
    match image ((node * node_size + j) % 2 ^ 32) with
    | some v => fillSliceGo image node node_size (j + 1) k (s.set j v)
    | none => none

/-- Read one node's bytes from the shared image into the `[0; 8]` buffer. -/
def fillSlice (image : Nat → Option Nat) (node node_size : Nat) :
    Option (List Nat) :=
  fillSliceGo image node node_size 0 (min node_size 8) (List.replicate 8 0)

/-- Result of the descent loop: an early `return false` from a failed
image read, or the loop's final node value. -/
inductive LoopOut where
  | earlyFalse
  | finished (node : Nat)

/-- The `while i < 128 && node < node_count` loop of the eBPF
`should_block`, recursing on the remaining iteration budget and
returning `(outcome, iterations executed, node reads performed)`.
Each iteration tests the top address bit (`ip & (1 << 127)`), shifts
`ip` left (as `u128`), reads one node (of `node_size` bytes) from the
image and steps to the selected child; the source passes
`record_size as u16` to `node_from_bytes`, the truncation
`record_size % 2 ^ 16`. -/
def sbLoop (image : Nat → Option Nat) (node_count node_size record_size : Nat) :
    Nat → Nat → Nat → LoopOut × Nat × Nat
  | 0, _, node => (.finished node, 0, 0)
  | rem + 1, ip, node =>
    if node < node_count then
      let bit := ip / 2 ^ 127 % 2
      let ip2 := ip * 2 % 2 ^ 128
      match fillSlice image node node_size with
      | none => (.earlyFalse, 1, 1)
      | some s =>
        let node2 := ebpf_node_from_bytes s (if bit > 0 then 1 else 0)
          (record_size % 2 ^ 16)
        let r := sbLoop image node_count node_size record_size rem ip2 node2
        (r.1, r.2.1 + 1, r.2.2 + 1)
    else (.finished node, 0, 0)

/-- The eBPF `should_block(db_name, map, addr)`: fetch `record_size` and
`node_count` from the parameter table (missing entry → false), descend
for at most 128 iterations from node 0 over the widened address, and
block iff the final node is `BLOCK_MARKER`. -/
def should_block (params : Nat → Option Nat) (image : Nat → Option Nat)
    (db_name : MaxmindDbKind) (addr : IpAddr) : Bool :=
  match params (record_size_key db_name) with
  | none => false
  | some record_size =>
    match params (node_count_key db_name) with
    | none => false
    | some node_count =>
      let node_size := record_size * 2 / 8
      let ip := match addr with
        | .v4 a => a % 2 ^ 32
        | .v6 a => a % 2 ^ 128
      match (sbLoop image node_count node_size record_size 128 ip 0).1 with
      | .earlyFalse => false
      | .finished node => node == BLOCK_MARKER

/-! ## Record predicates (geofw/src/main.rs) -/

/-- The bytes of the key `"autonomous_system_number"`. -/
def asnKey : List Nat :=
  [97, 117, 116, 111, 110, 111, 109, 111, 117, 115, 95, 115, 121, 115,
   116, 101, 109, 95, 110, 117, 109, 98, 101, 114]

/-- The ASN predicate passed to `consume` in `fetch_geoip_db`: block iff
the record's `autonomous_system_number` is a `u32` contained in the
configured `source_asn` set. -/
def asn_should_block (source_asn : List Nat)
    (data : List (List Nat × Data)) : Bool :=
  match mapGet data asnKey with
  | some (.u32 asn) => source_asn.contains asn
  | _ => false

/-! ## A concrete database

A minimal 24-bit database: one tree node (`node_count = 1`,
`node_size = 6`, `data_section_start = 6 * 1 + 16 = 22`), the 16-byte
separator, then two ASN records.  The root's left child is 17 (the
record at byte 22, `{"autonomous_system_number": 0}`) and its right
child is 44 (the record at byte 49, `{"autonomous_system_number": 1}`).
With `source_asn = {1}` the right record must be blocked and the left
must not. -/

/-- Record `{"autonomous_system_number": (u32) 0}`: map header `0xE1`,
string header `0x58` (type 2, length 24), the 24 key bytes, `0xC0`
(u32 of length 0). -/
def exRecordA : List Nat := 225 :: 88 :: asnKey ++ [192]

/-- Record `{"autonomous_system_number": (u32) 1}`: as `exRecordA` but
the value is `0xC1 0x01` (u32 of length 1, value 1). -/
def exRecordB : List Nat := 225 :: 88 :: asnKey ++ [193, 1]

/-- The raw database bytes: root node `[0,0,17, 0,0,44]`, separator,
record A at offset 22, record B at offset 49. -/
def exData : List Nat :=
  [0, 0, 17, 0, 0, 44] ++ List.replicate 16 0 ++ exRecordA ++ exRecordB

/-- Metadata of the concrete database (`record_size = 24`,
`node_count = 1`, `data_section_start = 22`). -/
def exMeta : Metadata := ⟨1, 24, 22⟩

/-- The concrete parsed database. -/
def exDb : MaxmindDB := ⟨exMeta, exData⟩

/-- The predicate used with the concrete database: `source_asn = {1}`. -/
def exPred : List (List Nat × Data) → Bool := asn_should_block [1]

/-- The decoded form of record B. -/
def exRecB : List (List Nat × Data) := [(asnKey, .u32 1)]

/-- The bytes the compactor produces from `exDb`: the left child slot
has been overwritten with `BLOCK_MARKER` while the right slot still
holds 44, and the 16 separator bytes are carried along. -/
def exCompacted : List Nat := [255, 255, 255, 0, 0, 44] ++ List.replicate 16 0

/-- The parameter table after installing the compacted ASN image:
`AsnNodeCount = 1`, `AsnRecordSize = 24`. -/
def exParams : Nat → Option Nat :=
  fun k => if k = 3 then some 1 else if k = 4 then some 24 else none

/-- The shared image holding `exCompacted` (unwritten positions read 0,
as in the zero-initialised eBPF array). -/
def exImage : Nat → Option Nat := fun i => some (exCompacted.getD i 0)

/-- A parameter table with `AsnNodeCount = 1` and
`AsnRecordSize = 65560 = 2^16 + 24`: a record size that is neither 24
nor 28, but whose `as u16` truncation is 24. -/
def exParamsTrunc : Nat → Option Nat :=
  fun k => if k = 3 then some 1 else if k = 4 then some 65560 else none

/-- An empty database buffer (for the truncated-input behaviour). -/
def emptyDb : MaxmindDB := ⟨⟨0, 0, 0⟩, []⟩

/-! ## Spec-side definitions

For the refinement-style claims these definitions are written from the
spec's words, to be compared with the embeddings above. -/

/-- A child slot of a tree node: the spec's "left"/"right". -/
inductive Side where
  | left
  | right

/-- Spec-side child decoder, from the layout of spec §3: the left child
is bytes 0..2 (for 28-bit records with the high nibble of byte 3 as top
bits), the right child is bytes 3..5 (for 28-bit records the low nibble
of byte 3 followed by bytes 4..6). -/
def claimChild (n : List Nat) (s : Side) (record_size : Nat) :
    Except RErr Nat :=
  if record_size = 28 then
    match s with
    | .left =>
      match idx n 3, idx n 0, idx n 1, idx n 2 with
      | .ok n3, .ok n0, .ok n1, .ok n2 => .ok (fromBE4 (n3 / 16 % 16) n0 n1 n2)
      | .error e, _, _, _ => .error e
      | _, .error e, _, _ => .error e
      | _, _, .error e, _ => .error e
      | _, _, _, .error e => .error e
    | .right =>
      match idx n 3, idx n 4, idx n 5, idx n 6 with
      | .ok n3, .ok n4, .ok n5, .ok n6 => .ok (fromBE4 (n3 % 16) n4 n5 n6)
      | .error e, _, _, _ => .error e
      | _, .error e, _, _ => .error e
      | _, _, .error e, _ => .error e
      | _, _, _, .error e => .error e
  else if record_size = 24 then
    match s with
    | .left =>
      match idx n 0, idx n 1, idx n 2 with
      | .ok n0, .ok n1, .ok n2 => .ok (fromBE4 0 n0 n1 n2)
      | .error e, _, _ => .error e
      | _, .error e, _ => .error e
      | _, _, .error e => .error e
    | .right =>
      match idx n 3, idx n 4, idx n 5 with
      | .ok n3, .ok n4, .ok n5 => .ok (fromBE4 0 n3 n4 n5)
      | .error e, _, _ => .error e
      | _, .error e, _ => .error e
      | _, _, .error e => .error e
  else .error .crash

/-- Spec-side descent (claim C9): at each step read the current address
bit and take the left child when the bit is zero, the right child
otherwise, stopping once the node value reaches `node_count` (or the
address bits run out). -/
def claimWalk (db : MaxmindDB) (node_size ip : Nat) :
    Nat → Nat → Except RErr Nat
  | node, 0 => .ok node
  | node, steps + 1 =>
    if node < db.metadata.node_count then
      match slice db.data (node * node_size) (node * node_size + node_size) with
      | .error e => .error e
      | .ok n =>
        match claimChild n
            (if ip / 2 ^ steps % 2 = 0 then Side.left else Side.right)
            db.metadata.record_size with
        | .error e => .error e
        | .ok node2 => claimWalk db node_size ip node2 steps
    else .ok node

/-- Spec-side lookup (claim C9): IPv4 starts at node 96 with bit index
31, IPv6 at node 0 with bit index 127; no record when the final node
equals `node_count`, otherwise the record decoded at
`data_section_start + (node − node_count) − 16`.  (The case of the
address bits running out below `node_count`, which the claim does not
describe, is the checked-subtraction panic, as in the code.) -/
def claimLookup (db : MaxmindDB) (fuel : Nat) (addr : IpAddr) :
    Except RErr (Option Data) :=
  let node_size := db.metadata.record_size * 2 / 8
  let start : Nat × Nat × Nat :=
    match addr with
    | .v4 a => (96, 32, a % 2 ^ 32)
    | .v6 a => (0, 128, a % 2 ^ 128)
  match claimWalk db node_size start.2.2 start.1 start.2.1 with
  | .error e => .error e
  | .ok node =>
    if node = db.metadata.node_count then .ok none
    else if node < db.metadata.node_count then .error .crash
    else
      match readData db fuel
          (db.metadata.data_section_start + (node - db.metadata.node_count) - 16) with
      | .error e => .error e
      | .ok (d, _) => .ok (some d)

/-- The claim's pointer bias table: sub-types 0..3 bias the target by
0 / 2048 / 526336 / 0. -/
def pointerBias (s : Nat) : Nat :=
  if s = 0 then 0 else if s = 1 then 2048 else if s = 2 then 526336 else 0

/-- Read `k` consecutive bytes starting at `offset` (any missing byte is
the index panic). -/
def readBytes (d : List Nat) (offset : Nat) : Nat → Except RErr (List Nat)
  | 0 => .ok []
  | k + 1 =>
    match idx d offset with
    | .error e => .error e
    | .ok b =>
      match readBytes d (offset + 1) k with
      | .error e => .error e
      | .ok t => .ok (b :: t)

/-- Spec-side pointer follow (claim C8): the sub-type `s` is bits 3–4 of
the first byte; `s + 1` extra bytes follow; the target is the big-endian
integer formed by the first byte's low three value bits (dropped for
sub-type 3) and the extra bytes, plus the bias; the pointed-to value is
decoded at `data_section_start + target` and the bytes consumed are the
pointer's own encoding length `s + 2`. -/
def claim_follow_pointer (db : MaxmindDB) (fuel offset : Nat) :
    Except RErr (Data × Nat) :=
  match idx db.data offset with
  | .error e => .error e
  | .ok b0 =>
    let s := b0 / 8 % 4
    match readBytes db.data (offset + 1) (s + 1) with
    | .error e => .error e
    | .ok ds =>
      let value := if s = 3 then beFold ds else b0 % 8 * 256 ^ (s + 1) + beFold ds
      match readData db fuel
          (db.metadata.data_section_start + (value + pointerBias s)) with
      | .error e => .error e
      | .ok (d, _) => .ok (d, s + 2)

/-- "This result is not the spec's structured `MalformedDb` error":
the property every embedded outcome of the source satisfies. -/
def noMal {α : Type} (x : Except RErr α) : Prop :=
  x ≠ .error .malformedDb

/-! ## Theorems -/

/-- Claim C1: for every address `a`, the fast-path lookup on the
compacted image returns true iff the full-database lookup of `a`
reaches a record on which the block predicate is true.  This FAILS on
the code: on the concrete database `exDb` with predicate
`source_asn = {1}`, the compactor decodes the root's blocked right
child but `write_over_node_bytes` is invoked with the hard-coded bit 0,
overwriting the LEFT slot.  For the address `8000::` (top bit set) the
full lookup reaches the right record `{"autonomous_system_number": 1}`
— blocked — while the fast path on the compacted image walks right to
the untouched child 44 and returns false. -/
theorem c1_compaction_breaks_roundtrip :
    consume exDb exPred 32 32 = .ok ⟨1, 24, exCompacted⟩ ∧
    lookup exDb 32 (.v6 (2 ^ 127)) = .ok (some (.map exRecB)) ∧
    exPred exRecB = true ∧
    should_block exParams exImage .asn (.v6 (2 ^ 127)) = false :=
  ⟨rfl, rfl, rfl, rfl⟩

/-- Claim C2: when a child `c` with `c > node_count` and
`c ≠ BLOCK_MARKER` has a record on which the predicate is true, exactly
that child's slot is overwritten with `BLOCK_MARKER` and the other
slot is untouched.  This FAILS on the code: on `exDb` the decoded and
blocked child is the RIGHT one (value 44, record
`{"autonomous_system_number": 1}`), yet after compaction the right slot
still holds 44 while the LEFT slot (previously 17, whose record was
never decoded) has become `BLOCK_MARKER`. -/
theorem c2_wrong_child_slot_overwritten :
    consume exDb exPred 32 32 = .ok ⟨1, 24, exCompacted⟩ ∧
    readData exDb 32 49 = .ok (.map exRecB, 28) ∧
    exPred exRecB = true ∧
    node_from_bytes (exData.take 6) false 24 = .ok 44 ∧
    node_from_bytes (exData.take 6) true 24 = .ok 17 ∧
    node_from_bytes (exCompacted.take 6) false 24 = .ok 44 ∧
    node_from_bytes (exCompacted.take 6) true 24 = .ok BLOCK_MARKER :=
  ⟨rfl, rfl, rfl, rfl, rfl, rfl, rfl⟩

/-- Claim C3 (counterexample): the compacted image is claimed to have
length exactly `node_count × node_size`.  On the concrete database the
compactor emits 22 bytes — `node_count × node_size = 6` tree bytes PLUS
the 16-byte data-section separator. -/
theorem c3_length_counterexample :
    consume exDb exPred 32 32 = .ok ⟨1, 24, exCompacted⟩ ∧
    exCompacted.length = 22 ∧
    exMeta.node_count * (exMeta.record_size * 2 / 8) = 6 ∧
    exCompacted.length ≠ exMeta.node_count * (exMeta.record_size * 2 / 8) :=
  ⟨rfl, rfl, rfl, by decide⟩

/-- Claim C3 (amended): the byte vector produced by the compactor has
length exactly `node_count × node_size + 16` — the tree plus the
16-byte data-section separator, which `consume` keeps because it trims
at `data_section_start = node_size × node_count + 16`. -/
theorem c3_compacted_length (db : MaxmindDB)
    (pred : List (List Nat × Data) → Bool) (rfuel fuel : Nat)
    (out : ProcessedDb)
    (hstart : db.metadata.data_section_start =
      db.metadata.node_count * (db.metadata.record_size * 2 / 8) + 16)
    (h : consume db pred rfuel fuel = .ok out) :
    out.db.length =
      db.metadata.node_count * (db.metadata.record_size * 2 / 8) + 16 := by
  unfold consume at h
  split at h
  · exact absurd h (by simp)
  · next data2 heq =>
    split at h
    · next hle =>
      cases h
      simp only [List.length_take]
      omega
    · exact absurd h (by simp)

/-- Witness for `c3_compacted_length` at the concrete database. -/
theorem c3_compacted_length_witness :
    (⟨1, 24, exCompacted⟩ : ProcessedDb).db.length =
      exDb.metadata.node_count * (exDb.metadata.record_size * 2 / 8) + 16 :=
  c3_compacted_length exDb exPred 32 32 ⟨1, 24, exCompacted⟩ rfl rfl

/-- Claim C4: a 5-bit length field of 29/30/31 adds one/two/three extra
size bytes, interpreted as a BIG-ENDIAN integer, to the offsets
29/285/65821.  This FAILS on the code, which SUMS the extra size bytes:
for the header `0xDE 0x01 0x00` (type 6, length field 30) the code
computes `285 + 1 + 0 = 286`, not the big-endian `285 + 0x0100 = 541`
(the header size, 3 bytes, does match the claim). -/
theorem c4_size_bytes_summed_not_big_endian :
    readDataMeta [222, 1, 0] = .ok (6, 286, 3) ∧ 286 ≠ 285 + (1 * 256 + 0) :=
  ⟨rfl, by decide⟩

/-- Peel one element off a list of known successor length. -/
theorem len_succ (n : List Nat) (k : Nat) (h : n.length = k + 1) :
    ∃ a t, n = a :: t ∧ t.length = k := by
  cases n with
  | nil => simp at h
  | cons a t => exact ⟨a, t, rfl, by simpa using h⟩

/-- Claim C6: the node-pointer codec is a dual pair.  For each record
size in {24, 28} and buffer of the node size (6 resp. 7 bytes), writing
a value `v < 2^record_size` into one child slot and decoding the same
slot yields `v`, while decoding the other slot is unchanged.  The left
slot is written with bit 0 and read with bit `true`; the right slot is
written with bit 1 and read with bit `false` (both pairs denote bytes
0..2 resp. 3..5, with the split nibble of byte 3 for 28-bit records). -/
theorem c6_codec_dual_pair (record_size : Nat) (n : List Nat) (v : Nat)
    (hrs : record_size = 24 ∨ record_size = 28)
    (hlen : n.length = record_size * 2 / 8)
    (hv : v < 2 ^ record_size) :
    ((write_over_node_bytes n 0 record_size v >>= fun m =>
        node_from_bytes m true record_size) = .ok v ∧
      (write_over_node_bytes n 0 record_size v >>= fun m =>
        node_from_bytes m false record_size) =
        node_from_bytes n false record_size) ∧
    ((write_over_node_bytes n 1 record_size v >>= fun m =>
        node_from_bytes m false record_size) = .ok v ∧
      (write_over_node_bytes n 1 record_size v >>= fun m =>
        node_from_bytes m true record_size) =
        node_from_bytes n true record_size) := by
  rcases hrs with h | h <;> subst h
  · -- 24-bit records, 6-byte buffers
    obtain ⟨a, n1, rfl, h1⟩ := len_succ n 5 (by simpa using hlen)
    obtain ⟨b, n2, rfl, h2⟩ := len_succ n1 4 h1
    obtain ⟨c, n3, rfl, h3⟩ := len_succ n2 3 h2
    obtain ⟨d, n4, rfl, h4⟩ := len_succ n3 2 h3
    obtain ⟨e, n5, rfl, h5⟩ := len_succ n4 1 h4
    obtain ⟨f, n6, rfl, h6⟩ := len_succ n5 0 h5
    obtain rfl : n6 = [] := List.length_eq_zero.mp h6
    refine ⟨⟨?_, ?_⟩, ?_, ?_⟩ <;>
      simp only [write_over_node_bytes, node_from_bytes, idx, fromBE4,
        List.set, List.length_cons, List.length_nil, List.getD, Bind.bind,
        Except.bind] <;>
      norm_num <;>
      omega
  · -- 28-bit records, 7-byte buffers
    obtain ⟨a, n1, rfl, h1⟩ := len_succ n 6 (by simpa using hlen)
    obtain ⟨b, n2, rfl, h2⟩ := len_succ n1 5 h1
    obtain ⟨c, n3, rfl, h3⟩ := len_succ n2 4 h2
    obtain ⟨d, n4, rfl, h4⟩ := len_succ n3 3 h3
    obtain ⟨e, n5, rfl, h5⟩ := len_succ n4 2 h4
    obtain ⟨f, n6, rfl, h6⟩ := len_succ n5 1 h5
    obtain ⟨g, n7, rfl, h7⟩ := len_succ n6 0 h6
    obtain rfl : n7 = [] := List.length_eq_zero.mp h7
    refine ⟨⟨?_, ?_⟩, ?_, ?_⟩ <;>
      simp only [write_over_node_bytes, node_from_bytes, idx, fromBE4,
        List.set, List.length_cons, List.length_nil, List.getD, Bind.bind,
        Except.bind] <;>
      norm_num <;>
      omega

/-- Witness for `c6_codec_dual_pair`: a 24-bit round trip on a concrete
buffer. -/
theorem c6_codec_dual_pair_witness :
    (write_over_node_bytes [1, 2, 3, 4, 5, 6] 0 24 70000 >>= fun m =>
      node_from_bytes m true 24) = .ok 70000 :=
  ((c6_codec_dual_pair 24 [1, 2, 3, 4, 5, 6] 70000 (.inl rfl) (by decide)
    (by decide)).1).1

/-- The descent loop's iteration and node-read counters are bounded by
the remaining iteration budget. -/
theorem sbLoop_counts (image : Nat → Option Nat)
    (node_count node_size record_size : Nat) :
    ∀ (rem ip node : Nat),
      (sbLoop image node_count node_size record_size rem ip node).2.1 ≤ rem ∧
      (sbLoop image node_count node_size record_size rem ip node).2.2 ≤ rem := by
  intro rem
  induction rem with
  | zero => intro ip node; simp [sbLoop]
  | succ r ih =>
    intro ip node
    simp only [sbLoop]
    split
    · split
      · simp
      · next s hs =>
        constructor <;>
        · have h2 := ih (ip * 2 % 2 ^ 128)
            (ebpf_node_from_bytes s
              (if ip / 2 ^ 127 % 2 > 0 then 1 else 0) (record_size % 2 ^ 16))
          simp at h2 ⊢
          omega
    · simp

/-- Claim C7: for every address, image and parameter table, the
fast-path descent loop (`sbLoop`, the `while i < 128 && node <
node_count` loop of the eBPF `should_block`, which invokes it with
budget 128 from node 0) executes at most 128 iterations and performs at
most 128 node reads from the image; the loop is a total function, so it
terminates irrespective of the image data. -/
theorem c7_descent_bounded (image : Nat → Option Nat)
    (node_count node_size record_size ip node : Nat) :
    (sbLoop image node_count node_size record_size 128 ip node).2.1 ≤ 128 ∧
    (sbLoop image node_count node_size record_size 128 ip node).2.2 ≤ 128 :=
  sbLoop_counts image node_count node_size record_size 128 ip node

/-- With a record size whose `as u16` truncation is other than 24/28,
the eBPF child decoder returns 0, so the descent never leaves node 0
(or aborts on a failed read). -/
theorem sbLoop_bad_record_size (image : Nat → Option Nat)
    (node_count node_size record_size : Nat)
    (h24 : record_size % 2 ^ 16 ≠ 24) (h28 : record_size % 2 ^ 16 ≠ 28) :
    ∀ (rem ip : Nat),
      (sbLoop image node_count node_size record_size rem ip 0).1 = .earlyFalse ∨
      (sbLoop image node_count node_size record_size rem ip 0).1 = .finished 0 := by
  intro rem
  induction rem with
  | zero => intro ip; right; rfl
  | succ r ih =>
    intro ip
    simp only [sbLoop]
    split
    · split
      · left; rfl
      · next s hs =>
        have hz : ebpf_node_from_bytes s
            (if ip / 2 ^ 127 % 2 > 0 then 1 else 0)
            (record_size % 2 ^ 16) = 0 := by
          have h24b : record_size % 65536 ≠ 24 := by simpa using h24
          have h28b : record_size % 65536 ≠ 28 := by simpa using h28
          simp [ebpf_node_from_bytes, h24b, h28b]
        rw [hz]
        exact ih (ip * 2 % 2 ^ 128)
    · right; rfl

/-- Claim C10 (counterexample): the claim says any present record size
other than 24/28 makes the fast path return false for every input.
But the source truncates the parameter with `as u16` before the record
size match, so `record_size = 65560 = 2^16 + 24` — neither 24 nor 28 —
behaves exactly like 24: on the compacted image of the concrete
database, the all-zero address descends left into the `BLOCK_MARKER`
slot and `should_block` returns true. -/
theorem c10_truncation_counterexample :
    should_block exParamsTrunc exImage .asn (.v6 0) = true ∧
    exParamsTrunc (record_size_key .asn) = some 65560 ∧
    (65560 : Nat) ≠ 24 ∧ (65560 : Nat) ≠ 28 :=
  ⟨rfl, rfl, by decide, by decide⟩

/-- Claim C10 (amended): if the record-size parameter for the queried
database kind is present and its `as u16` truncation (its value mod
`2^16`, which the source applies before the record-size match) is
neither 24 nor 28, the fast-path `should_block` returns false for
every address, image and parameter table: the child decoder returns 0
for unsupported record sizes, so the descent never reaches
`BLOCK_MARKER` (and, being a total function, never panics). -/
theorem c10_fail_open_on_bad_record_size (params image : Nat → Option Nat)
    (db_name : MaxmindDbKind) (addr : IpAddr) (rs : Nat)
    (h : params (record_size_key db_name) = some rs)
    (h24 : rs % 2 ^ 16 ≠ 24) (h28 : rs % 2 ^ 16 ≠ 28) :
    should_block params image db_name addr = false := by
  unfold should_block
  rw [h]
  cases hnc : params (node_count_key db_name) with
  | none => rfl
  | some nc =>
    simp only
    rcases sbLoop_bad_record_size image nc (rs * 2 / 8) rs h24 h28 128
        (match addr with | .v4 a => a % 2 ^ 32 | .v6 a => a % 2 ^ 128) with
      hout | hout <;>
      rw [hout] <;> rfl

/-- Witness for `c10_fail_open_on_bad_record_size` with record size 16. -/
theorem c10_fail_open_witness :
    should_block (fun k => if k = 2 then some 16 else some 5)
      (fun _ => some 0) .country (.v4 1) = false :=
  c10_fail_open_on_bad_record_size
    (fun k => if k = 2 then some 16 else some 5) (fun _ => some 0)
    .country (.v4 1) 16 rfl (by decide) (by decide)

/-- The spec-side left-child decode is `node_from_bytes` with bit `true`. -/
theorem claimChild_left (n : List Nat) (record_size : Nat) :
    claimChild n .left record_size = node_from_bytes n true record_size := rfl

/-- The spec-side right-child decode is `node_from_bytes` with bit `false`. -/
theorem claimChild_right (n : List Nat) (record_size : Nat) :
    claimChild n .right record_size = node_from_bytes n false record_size := rfl

/-- The source's descent loop equals the spec-side walk. -/
theorem lookupLoop_eq_claimWalk (db : MaxmindDB) (node_size ip : Nat) :
    ∀ (steps node : Nat),
      lookupLoop db node_size ip node steps =
        claimWalk db node_size ip node steps := by
  intro steps
  induction steps with
  | zero => intro node; rfl
  | succ k ih =>
    intro node
    simp only [lookupLoop, claimWalk]
    split
    · cases hs : slice db.data (node * node_size) (node * node_size + node_size) with
      | error e => rfl
      | ok n =>
        have hc : node_from_bytes n (decide (ip / 2 ^ k % 2 = 0))
              db.metadata.record_size =
            claimChild n (if ip / 2 ^ k % 2 = 0 then Side.left else Side.right)
              db.metadata.record_size := by
          by_cases h : ip / 2 ^ k % 2 = 0 <;>
            simp [h, claimChild_left, claimChild_right]
        dsimp only
        rw [hc]
        cases claimChild n (if ip / 2 ^ k % 2 = 0 then Side.left else Side.right)
            db.metadata.record_size with
        | error e => rfl
        | ok node2 => exact ih node2
    · rfl

/-- Claim C9: the full-database lookup starts at node 96 / bit 31 for
IPv4 and node 0 / bit 127 for IPv6, takes the left child when the
current address bit is zero and the right child otherwise, stops once
the child value is at least `node_count`, returns `none` when it equals
`node_count`, and otherwise decodes the record at
`data_section_start + (child − node_count) − 16`: `lookup` coincides
with the walk assembled from exactly that description. -/
theorem c9_lookup_traversal (db : MaxmindDB) (fuel : Nat) (addr : IpAddr) :
    lookup db fuel addr = claimLookup db fuel addr := by
  cases addr <;> simp only [lookup, claimLookup, lookupLoop_eq_claimWalk]

/-- Claim C8: decoding a pointer resolves transparently to the
pointed-to value; the target is the pointer's value bits biased by
0 / 2048 / 526336 / 0 for sub-types 0–3 (sub-type in bits 3–4 of the
first byte, value bits composed big-endian with the extra bytes), and
the returned bytes-consumed count is the pointer's own encoding length
`s + 2` (2..5), never the target's: `follow_pointer` coincides with the
pointer-follow assembled from exactly that description. -/
theorem c8_pointer_follow (db : MaxmindDB) (fuel offset : Nat) :
    follow_pointer db (fuel + 1) offset = claim_follow_pointer db fuel offset := by
  unfold follow_pointer claim_follow_pointer
  simp only [decode]
  cases h0 : idx db.data offset with
  | error e => simp
  | ok b0 =>
    dsimp only
    have hs : b0 / 8 % 4 = 0 ∨ b0 / 8 % 4 = 1 ∨ b0 / 8 % 4 = 2 ∨
        b0 / 8 % 4 = 3 := by omega
    rcases hs with hs | hs | hs | hs <;> rw [hs] <;>
      simp only [readBytes, pointerValue]
    · -- sub-type 0: one extra byte
      cases h1 : idx db.data (offset + 1) with
      | error e => simp
      | ok d1 =>
        dsimp only
        simp [readData, fromBE4, beFold, pointerBias]
    · -- sub-type 1: two extra bytes, bias 2048
      cases h1 : idx db.data (offset + 1) with
      | error e => simp
      | ok d1 =>
        cases h2 : idx db.data (offset + 2) with
        | error e => simp
        | ok d2 =>
          dsimp only
          simp [readData, fromBE4, beFold, pointerBias]
          ring_nf
    · -- sub-type 2: three extra bytes, bias 526336
      cases h1 : idx db.data (offset + 1) with
      | error e => simp
      | ok d1 =>
        cases h2 : idx db.data (offset + 2) with
        | error e => simp
        | ok d2 =>
          cases h3 : idx db.data (offset + 3) with
          | error e => simp
          | ok d3 =>
            dsimp only
            simp [readData, fromBE4, beFold, pointerBias]
            ring_nf
    · -- sub-type 3: four extra bytes, value bits ignored
      cases h1 : idx db.data (offset + 1) with
      | error e => simp
      | ok d1 =>
        cases h2 : idx db.data (offset + 2) with
        | error e => simp
        | ok d2 =>
          cases h3 : idx db.data (offset + 3) with
          | error e => simp
          | ok d3 =>
            cases h4 : idx db.data (offset + 4) with
            | error e => simp
            | ok d4 =>
              dsimp only
              simp [readData, fromBE4, beFold, pointerBias]

/-- An error propagated from a result satisfying `noMal` satisfies
`noMal` at any result type. -/
theorem noMal_propagate {α β : Type} {x : Except RErr α} {e : RErr}
    (hx : noMal x) (h : x = .error e) : noMal (.error e : Except RErr β) := by
  have he : e ≠ .malformedDb := by
    intro hc
    exact hx (by rw [h, hc])
  intro hc
  injection hc with h2
  exact he h2

/-- Byte access never produces `MalformedDb`. -/
theorem idx_noMal (d : List Nat) (i : Nat) : noMal (idx d i) := by
  unfold idx
  split <;> simp [noMal]

/-- Slicing never produces `MalformedDb`. -/
theorem slice_noMal (d : List Nat) (a b : Nat) : noMal (slice d a b) := by
  unfold slice
  split <;> simp [noMal]

/-- The length decoder never produces `MalformedDb`. -/
theorem readDataMetaLen_noMal (d : List Nat) (read dataType len0 : Nat) :
    noMal (readDataMetaLen d read dataType len0) := by
  unfold readDataMetaLen
  iterate 6 (all_goals (try split))
  all_goals first
    | (solve | simp [noMal])
    | (intro hc
       try (injection hc with h2; subst h2)
       try subst hc
       first
         | exact idx_noMal _ _ (by assumption)
       )

/-- The pointer computation never produces `MalformedDb`. -/
theorem pointerValue_noMal (data : List Nat) (offset s v : Nat) :
    noMal (pointerValue data offset s v) := by
  unfold pointerValue
  iterate 6 (all_goals (try split))
  all_goals first
    | (solve | simp [noMal])
    | (intro hc
       try (injection hc with h2; subst h2)
       try subst hc
       first
         | exact idx_noMal _ _ (by assumption)
       )

/-- The header decoder never produces `MalformedDb`. -/
theorem readDataMeta_noMal (d : List Nat) : noMal (readDataMeta d) := by
  unfold readDataMeta
  iterate 6 (all_goals (try split))
  all_goals first
    | (solve | simp [noMal])
    | exact readDataMetaLen_noMal _ _ _ _
    | (intro hc
       try (injection hc with h2; subst h2)
       try subst hc
       first
         | exact idx_noMal _ _ (by assumption)
       )

/-- `read_u16` never produces `MalformedDb`. -/
theorem readU16_noMal (data : List Nat) (offset length : Nat) :
    noMal (readU16 data offset length) := by
  unfold readU16
  iterate 6 (all_goals (try split))
  all_goals first
    | (solve | simp [noMal])
    | (intro hc
       try (injection hc with h2; subst h2)
       try subst hc
       first
         | exact slice_noMal _ _ _ (by assumption)
       )

/-- `read_u32` never produces `MalformedDb`. -/
theorem readU32_noMal (data : List Nat) (offset length : Nat) :
    noMal (readU32 data offset length) := by
  unfold readU32
  iterate 6 (all_goals (try split))
  all_goals first
    | (solve | simp [noMal])
    | (intro hc
       try (injection hc with h2; subst h2)
       try subst hc
       first
         | exact slice_noMal _ _ _ (by assumption)
       )

/-- `read_i32` never produces `MalformedDb`. -/
theorem readI32_noMal (data : List Nat) (offset length : Nat) :
    noMal (readI32 data offset length) := by
  unfold readI32
  iterate 6 (all_goals (try split))
  all_goals first
    | (solve | simp [noMal])
    | (intro hc
       try (injection hc with h2; subst h2)
       try subst hc
       first
         | exact slice_noMal _ _ _ (by assumption)
       )

/-- `read_u64` never produces `MalformedDb`. -/
theorem readU64_noMal (data : List Nat) (offset length : Nat) :
    noMal (readU64 data offset length) := by
  unfold readU64
  iterate 6 (all_goals (try split))
  all_goals first
    | (solve | simp [noMal])
    | (intro hc
       try (injection hc with h2; subst h2)
       try subst hc
       first
         | exact slice_noMal _ _ _ (by assumption)
       )

/-- `read_u128` never produces `MalformedDb`. -/
theorem readU128_noMal (data : List Nat) (offset length : Nat) :
    noMal (readU128 data offset length) := by
  unfold readU128
  iterate 6 (all_goals (try split))
  all_goals first
    | (solve | simp [noMal])
    | (intro hc
       try (injection hc with h2; subst h2)
       try subst hc
       first
         | exact slice_noMal _ _ _ (by assumption)
       )

/-- The node decoder never produces `MalformedDb`. -/
theorem node_from_bytes_noMal (n : List Nat) (bit : Bool) (record_size : Nat) :
    noMal (node_from_bytes n bit record_size) := by
  unfold node_from_bytes
  iterate 8 (all_goals (try split))
  all_goals first
    | (solve | simp [noMal])
    | (intro hc
       try (injection hc with h2; subst h2)
       try subst hc
       first
         | exact idx_noMal _ _ (by assumption)
       )

/-- The node writer never produces `MalformedDb`. -/
theorem write_over_node_bytes_noMal (n : List Nat) (bit record_size val : Nat) :
    noMal (write_over_node_bytes n bit record_size val) := by
  unfold write_over_node_bytes
  iterate 6 (all_goals (try split))
  all_goals simp [noMal]

/-- The decoder never produces `MalformedDb`, at any fuel and call. -/
theorem decode_noMal (db : MaxmindDB) :
    ∀ (fuel : Nat) (c : DecCall), noMal (decode db fuel c) := by
  intro fuel
  induction fuel with
  | zero => intro c; simp [decode, noMal]
  | succ f ih =>
    intro c
    cases c with
    | data off =>
      simp only [decode]
      iterate 8 (all_goals (try split))
      all_goals first
        | (solve | simp [noMal])
        | exact ih _
        | (intro hc
           try (injection hc with h2; subst h2)
           try subst hc
           first
             | exact idx_noMal _ _ (by assumption)
             | exact slice_noMal _ _ _ (by assumption)
             | exact readDataMeta_noMal _ (by assumption)
             | exact readU16_noMal _ _ _ (by assumption)
             | exact readU32_noMal _ _ _ (by assumption)
             | exact readI32_noMal _ _ _ (by assumption)
             | exact readU64_noMal _ _ _ (by assumption)
             | exact readU128_noMal _ _ _ (by assumption)
             | exact ih _ (by assumption)
           )
    | mapEntries off read len acc =>
      cases len with
      | zero => simp [decode, noMal]
      | succ l =>
        simp only [decode]
        iterate 8 (all_goals (try split))
        all_goals first
          | (solve | simp [noMal])
          | exact ih _
          | (intro hc
             try (injection hc with h2; subst h2)
             try subst hc
             exact ih _ (by assumption))
    | arrEntries off read len acc =>
      cases len with
      | zero => simp [decode, noMal]
      | succ l =>
        simp only [decode]
        iterate 8 (all_goals (try split))
        all_goals first
          | (solve | simp [noMal])
          | exact ih _
          | (intro hc
             try (injection hc with h2; subst h2)
             try subst hc
             exact ih _ (by assumption))
    | ptr off =>
      simp only [decode]
      iterate 8 (all_goals (try split))
      all_goals first
        | (solve | simp [noMal])
        | exact ih _
        | (intro hc
           try (injection hc with h2; subst h2)
           try subst hc
           first
             | exact idx_noMal _ _ (by assumption)
             | exact pointerValue_noMal _ _ _ _ (by assumption)
             | exact ih _ (by assumption)
           )

/-- The compactor's loop never produces `MalformedDb`. -/
theorem consumeLoop_noMal (md : Metadata)
    (pred : List (List Nat × Data) → Bool) (rfuel : Nat) :
    ∀ (fuel : Nat) (data : List Nat) (stack : List (Nat × Nat)),
      noMal (consumeLoop md pred rfuel fuel data stack) := by
  intro fuel
  induction fuel with
  | zero => intro data stack; simp [consumeLoop, noMal]
  | succ f ih =>
    intro data stack
    cases stack with
    | nil => simp [consumeLoop, noMal]
    | cons top rest =>
      obtain ⟨node, position⟩ := top
      simp only [consumeLoop]
      iterate 8 (all_goals (try split))
      all_goals first
        | (solve | simp [noMal])
        | exact ih _ _
        | (intro hc
           try (injection hc with h2; subst h2)
           try subst hc
           first
             | exact slice_noMal _ _ _ (by assumption)
             | exact node_from_bytes_noMal _ _ _ (by assumption)
             | exact decode_noMal _ _ _ (by assumption)
             | exact write_over_node_bytes_noMal _ _ _ _ (by assumption)
           )

/-- The compactor never produces `MalformedDb`. -/
theorem consume_noMal (db : MaxmindDB)
    (pred : List (List Nat × Data) → Bool) (rfuel fuel : Nat) :
    noMal (consume db pred rfuel fuel) := by
  unfold consume
  iterate 4 (all_goals (try split))
  all_goals first
    | (solve | simp [noMal])
    | (intro hc
       try (injection hc with h2; subst h2)
       try subst hc
       first
         | exact consumeLoop_noMal _ _ _ _ _ _ (by assumption)
       )

/-- A result satisfying `noMal` is a success, a crash, or fuel
exhaustion. -/
theorem noMal_classify {α : Type} (x : Except RErr α) (h : noMal x) :
    (∃ v, x = .ok v) ∨ x = .error .crash ∨ x = .error .fuel := by
  cases x with
  | ok v => exact .inl ⟨v, rfl⟩
  | error e =>
    cases e with
    | crash => exact .inr (.inl rfl)
    | malformedDb => exact absurd rfl h
    | fuel => exact .inr (.inr rfl)

/-- Claim C5 (counterexample): on a truncated buffer (here the empty
one) the decoder's outcome is a crash — the embedded Rust panic — and
not the structured `MalformedDb` error the claim requires it to
return. -/
theorem c5_truncated_crash_counterexample :
    readData emptyDb 8 0 = .error .crash ∧ RErr.crash ≠ RErr.malformedDb :=
  ⟨rfl, by decide⟩

/-- Claim C5 (amended): on truncated buffers, unexpected type tags and
lengths running past the buffer the decoder aborts with a panic (the
crash outcome) — it never returns a structured `MalformedDb` error,
which does not exist in the code — and a decode failure aborts the
compactor by propagating the panic.  Every decoder and compactor
outcome is a success, a crash, or fuel exhaustion; concretely, the
truncated empty buffer crashes the decoder, and a database whose record
offsets point past the buffer crashes the compactor. -/
theorem c5_decoder_panics_no_structured_error :
    (∀ (db : MaxmindDB) (fuel offset : Nat),
      (∃ v, readData db fuel offset = .ok v) ∨
      readData db fuel offset = .error .crash ∨
      readData db fuel offset = .error .fuel) ∧
    (∀ (db : MaxmindDB) (pred : List (List Nat × Data) → Bool)
      (rfuel fuel : Nat),
      (∃ v, consume db pred rfuel fuel = .ok v) ∨
      consume db pred rfuel fuel = .error .crash ∨
      consume db pred rfuel fuel = .error .fuel) ∧
    readData emptyDb 8 0 = .error .crash ∧
    consume ⟨⟨1, 24, 22⟩, [0, 0, 17, 0, 0, 44]⟩ exPred 32 32 = .error .crash :=
  ⟨fun db fuel offset => noMal_classify _ (decode_noMal db fuel (.data offset)),
   fun db pred rfuel fuel => noMal_classify _ (consume_noMal db pred rfuel fuel),
   rfl, rfl⟩

end Geofw
